import Mathlib

/-!
Shallow embedding of `services/vr/virtual_touchpad/VirtualTouchpadEvdev.cpp`
(Android `frameworks_native`, VR virtual touchpad service).

The C++ class `VirtualTouchpadEvdev` keeps a fixed-size array of per-touchpad
slot records and translates normalized touch / button / scroll input into
ordered evdev primitive emissions through an `EvdevInjector`.  The injector
itself (`EvdevInjector.h/.cpp`) and the class header are outside the sources
at hand; they are modelled from the specification's Device Injector contract:
emission primitives are recorded in an output trace and always succeed, so
`GetError()` after `ResetError()` returns 0.

Floating point note: the source computes `x * kWidth` on IEEE `float` and
truncates to `int32_t`.  Multiplication of a `float` by the power of two
65536 is exact (an exponent shift, no overflow for `x < 1`), and truncation
of a nonnegative value is `floor`, so modelling the coordinates as rationals
with `Int.floor` is faithful.  Likewise `copysignf(ceilf(fabs(4.0f * x)), x)`
is exact on `float` for `|x| ≤ 1` because `4 * x` is an exponent shift.
-/

namespace VirtualTouchpad

/-- kWidth = 0x10000 (source line 27). -/
abbrev kWidth : ℤ := 0x10000

/-- kHeight = 0x10000 (source line 28). -/
abbrev kHeight : ℤ := 0x10000

/-- kSlots = 2 (source line 29): number of multitouch contact slots. -/
abbrev kSlots : ℤ := 2

/-- Modelled from the spec: the number of virtual touchpads, `kTouchpads`,
is declared in the class header `VirtualTouchpadEvdev.h`, which is not among
the sources; the spec fixes a fixed-size collection of slot states.  We use
the value 2.  No claim depends on the particular count. -/
abbrev kTouchpads : ℕ := 2

/-- POSIX invalid-argument error code, from `<errno.h>` (external header). -/
abbrev EINVAL : ℤ := 22

/-- POSIX not-supported error code, from `<errno.h>` (external header). -/
abbrev ENOTSUP : ℤ := 95

/-- Modelled from the spec: `EvdevInjector::ERROR_SEQUENCING`, declared in
`EvdevInjector.h`, which is not among the sources.  Only its distinctness
from 0 (success), `EINVAL` and `ENOTSUP` matters to any claim. -/
abbrev ERROR_SEQUENCING : ℤ := -1

/-- Linux `BTN_TOUCH` key code, from `<linux/input.h>` (external header). -/
abbrev BTN_TOUCH : ℤ := 0x14a

/-- Linux `BTN_BACK` key code, from `<linux/input.h>` (external header). -/
abbrev BTN_BACK : ℤ := 0x116

/-- Linux `REL_WHEEL` axis code (vertical wheel), external header. -/
abbrev REL_WHEEL : ℤ := 0x08

/-- Linux `REL_HWHEEL` axis code (horizontal wheel), external header. -/
abbrev REL_HWHEEL : ℤ := 0x06

/-- Android `AMOTION_EVENT_BUTTON_BACK` bit, from `<android/input.h>`
(external header); value `1 << 3`. -/
abbrev AMOTION_EVENT_BUTTON_BACK : ℤ := 8

/-- Modelled from the spec: `EvdevInjector::KEY_PRESS` (external header);
only its distinctness from `KEY_RELEASE` matters. -/
abbrev KEY_PRESS : ℤ := 1

/-- Modelled from the spec: `EvdevInjector::KEY_RELEASE` (external header). -/
abbrev KEY_RELEASE : ℤ := 0

/-- `INT32_MIN`, the sentinel stored in `last_device_x/y` by `Reset`. -/
abbrev INT32_MIN : ℤ := -2147483648

/-- One low-level emission primitive of the Device Injector contract
(`SendMultiTouchXY`, `SendKey`, `SendMultiTouchLift`, `SendRel`,
`SendSynReport`).  Operations record the primitives they emit, in order. -/
inductive Primitive where
  | sendMultiTouchXY (slot id x y : ℤ)
  | sendKey (code action : ℤ)
  | sendMultiTouchLift (slot : ℤ)
  | sendRel (code value : ℤ)
  | sendSynReport
  deriving DecidableEq, Repr

/-- Modelled from the spec: the Device Injector collaborator.  Its only
state observable to the claims is whether it is owned by the manager
(`owned_injector` was used) or externally supplied (test substitution);
emission and configuration always succeed in the model. -/
structure Injector where
  owned : Bool
  deriving DecidableEq, Repr

/-- One per-touchpad slot record (`VirtualTouchpadEvdev::Touchpad` in the
header, fields as used by the .cpp): the injector reference (absent when
not attached), the last emitted device coordinates, the 2-bit contact
history `touches`, and the last reported button mask. -/
structure Touchpad where
  injector : Option Injector
  last_device_x : ℤ
  last_device_y : ℤ
  touches : ℕ
  last_motion_event_buttons : ℤ
  deriving DecidableEq, Repr

/-- The manager state: the fixed-size array `touchpad_[kTouchpads]`. -/
structure VState where
  touchpad_ : Fin kTouchpads → Touchpad

/-- Write one slot of the array. -/
def VState.set (st : VState) (i : Fin kTouchpads) (tp : Touchpad) : VState :=
  ⟨Function.update st.touchpad_ i tp⟩

/-- The slot record produced by `Reset` (source lines 56-66): injector
released, coordinates to the `INT32_MIN` sentinel, history and mask to 0. -/
def resetTouchpad : Touchpad :=
  { injector := none
    last_device_x := INT32_MIN
    last_device_y := INT32_MIN
    touches := 0
    last_motion_event_buttons := 0 }

/-- `VirtualTouchpadEvdev::Reset` (source lines 55-67).  `Close()` on an
existing injector is an external side effect with no observable state. -/
def Reset (_st : VState) : VState :=
  ⟨fun _ => resetTouchpad⟩

/-- The state of a freshly created manager: `Create` calls `Reset`
(source lines 49-53). -/
def freshState : VState :=
  ⟨fun _ => resetTouchpad⟩

/-- Per-slot effect of `Attach` (source lines 71-90): if no injector is
present, create one owned by the manager; then (re)configure it.  The
configuration calls go to the modelled injector and always succeed.  No
other slot field is written. -/
def attachSlot (tp : Touchpad) : Touchpad :=
  match tp.injector with
  | none => { tp with injector := some { owned := true } }
  | some inj => { tp with injector := some inj }

/-- `VirtualTouchpadEvdev::Attach` (source lines 69-93).  Returns the last
nonzero configuration error, which is 0 in the model (configuration always
succeeds). -/
def Attach (st : VState) : ℤ × VState :=
  (0, ⟨fun i => attachSlot (st.touchpad_ i)⟩)

/-- `VirtualTouchpadEvdev::Detach` (source lines 95-98): `Reset`, then OK. -/
def Detach (st : VState) : ℤ × VState :=
  (0, Reset st)

/-- The contact bit derived from pressure: `(pressure > 0)` (line 111). -/
def contactBit (pressure : ℚ) : ℕ :=
  if 0 < pressure then 1 else 0

/-- The 2-bit history update `((touches & 1) << 1) | contact` (line 111). -/
def advanceTouches (t c : ℕ) : ℕ :=
  ((t &&& 1) <<< 1) ||| c

/-- The switch on the updated 2-bit history (source lines 119-145),
producing the emission trace.  `lastX`/`lastY` are the slot's previous
device coordinates, compared against for duplicate suppression in the
hover (0b00) and touch-continues (0b11) cases.  After the history update
the value is always in {0,1,2,3}; the C++ switch has no default, so the
final case is 0b11. -/
def touchEmission (touches : ℕ) (device_x device_y lastX lastY : ℤ) :
    List Primitive :=
  if touches = 0 then
    if device_x ≠ lastX ∨ device_y ≠ lastY then
      [.sendMultiTouchXY 0 0 device_x device_y, .sendSynReport]
    else []
  else if touches = 1 then
    [.sendMultiTouchXY 0 0 device_x device_y,
     .sendKey BTN_TOUCH KEY_PRESS, .sendSynReport]
  else if touches = 2 then
    [.sendKey BTN_TOUCH KEY_RELEASE, .sendMultiTouchLift 0, .sendSynReport]
  else
    if device_x ≠ lastX ∨ device_y ≠ lastY then
      [.sendMultiTouchXY 0 0 device_x device_y, .sendSynReport]
    else []

/-- `VirtualTouchpadEvdev::Touch` (source lines 100-150).  Returns the
status, the updated manager state, and the emitted primitive trace.

The C++ computes `int32_t device_x = x * kWidth` after the range check, so
`x ≥ 0` and float truncation equals `Int.floor` (see file header note).
The history `touches` is updated through the array reference before the
injector check, so the sequencing-error return still advances the
history.  `last_device_x/y` are written after the switch, in every branch
that reaches it. -/
def Touch (st : VState) (touchpad_id : ℤ) (x y pressure : ℚ) :
    ℤ × VState × List Primitive :=
  if h : touchpad_id < 0 ∨ (kTouchpads : ℤ) ≤ touchpad_id then
    (EINVAL, st, [])
  else if x < 0 ∨ 1 ≤ x ∨ y < 0 ∨ 1 ≤ y then
    (EINVAL, st, [])
  else
    let device_x : ℤ := ⌊x * (kWidth : ℚ)⌋
    let device_y : ℤ := ⌊y * (kHeight : ℚ)⌋
    let idx : Fin kTouchpads := ⟨touchpad_id.toNat, by omega⟩
    let tp0 := st.touchpad_ idx
    let tp := { tp0 with touches := advanceTouches tp0.touches (contactBit pressure) }
    if tp.injector.isNone then
      (ERROR_SEQUENCING, st.set idx tp, [])
    else
      let emit := touchEmission tp.touches device_x device_y
        tp.last_device_x tp.last_device_y
      (0, st.set idx { tp with last_device_x := device_x,
                               last_device_y := device_y }, emit)

/-- `VirtualTouchpadEvdev::ButtonState` (source lines 152-179).  `changes`
is the xor of the stored mask with the new one; a zero xor is an early
success, an unrecognized bit (outside `AMOTION_EVENT_BUTTON_BACK`) is
`ENOTSUP`, a missing injector is the sequencing error; otherwise a key
press/release plus barrier is emitted when the back bit changed, and the
stored mask is updated. -/
def ButtonState (st : VState) (touchpad_id : ℤ) (buttons : ℤ) :
    ℤ × VState × List Primitive :=
  if h : touchpad_id < 0 ∨ (kTouchpads : ℤ) ≤ touchpad_id then
    (EINVAL, st, [])
  else
    let idx : Fin kTouchpads := ⟨touchpad_id.toNat, by omega⟩
    let tp := st.touchpad_ idx
    let changes := Int.xor tp.last_motion_event_buttons buttons
    if changes = 0 then
      (0, st, [])
    else if Int.land buttons (Int.lnot AMOTION_EVENT_BUTTON_BACK) ≠ 0 then
      (ENOTSUP, st, [])
    else if tp.injector.isNone then
      (ERROR_SEQUENCING, st, [])
    else
      let emit :=
        if Int.land changes AMOTION_EVENT_BUTTON_BACK ≠ 0 then
          [Primitive.sendKey BTN_BACK
            (if Int.land buttons AMOTION_EVENT_BUTTON_BACK ≠ 0 then KEY_PRESS
             else KEY_RELEASE),
           Primitive.sendSynReport]
        else []
      (0, st.set idx { tp with last_motion_event_buttons := buttons }, emit)

/-- `scale_relative_scroll` (source lines 31-45):
`copysignf(ceilf(fabs(4.0f * x)), x)`, exact on rationals for `|x| ≤ 1`. -/
def scale_relative_scroll (x : ℚ) : ℤ :=
  if x < 0 then -⌈|4 * x|⌉ else ⌈|4 * x|⌉

/-- `VirtualTouchpadEvdev::Scroll` (source lines 181-205).  Emits one
relative event per nonzero quantized axis and a barrier when anything was
emitted; the state is not modified. -/
def Scroll (st : VState) (touchpad_id : ℤ) (x y : ℚ) :
    ℤ × VState × List Primitive :=
  if h : touchpad_id < 0 ∨ (kTouchpads : ℤ) ≤ touchpad_id then
    (EINVAL, st, [])
  else if x < -1 ∨ 1 < x ∨ y < -1 ∨ 1 < y then
    (EINVAL, st, [])
  else
    let idx : Fin kTouchpads := ⟨touchpad_id.toNat, by omega⟩
    let tp := st.touchpad_ idx
    if tp.injector.isNone then
      (ERROR_SEQUENCING, st, [])
    else
      let scaled_x := scale_relative_scroll x
      let scaled_y := scale_relative_scroll y
      let emit :=
        (if scaled_x ≠ 0 then [Primitive.sendRel REL_HWHEEL scaled_x] else []) ++
        (if scaled_y ≠ 0 then [Primitive.sendRel REL_WHEEL scaled_y] else []) ++
        (if scaled_x ≠ 0 ∨ scaled_y ≠ 0 then [Primitive.sendSynReport] else [])
      (0, st, emit)

/-- One structural line of the diagnostic dump (`dumpInternal`, source
lines 207-225); string formatting is abstracted into constructors. -/
inductive DumpItem where
  | header (i : ℕ)
  | injectorNone
  | injectorKind (owned : Bool)
  | touchesLine (n : ℕ)
  | lastPosition (x y : ℤ)
  | lastButtons (b : ℤ)
  | injectorInternal
  | blank
  deriving DecidableEq, Repr

/-- The loop body of `dumpInternal` over the remaining (index, slot)
pairs.  A slot without an injector reports its header and
`injector = none` and then RETURNS (source line 213), dropping all
remaining slots. -/
def dumpFrom : List (ℕ × Touchpad) → List DumpItem
  | [] => []
  | (i, tp) :: rest =>
    DumpItem.header i ::
      match tp.injector with
      | none => [DumpItem.injectorNone]
      | some inj =>
        DumpItem.injectorKind inj.owned ::
        DumpItem.touchesLine tp.touches ::
        DumpItem.lastPosition tp.last_device_x tp.last_device_y ::
        DumpItem.lastButtons tp.last_motion_event_buttons ::
        DumpItem.injectorInternal :: DumpItem.blank :: dumpFrom rest

/-- `VirtualTouchpadEvdev::dumpInternal` (source lines 207-225). -/
def dumpInternal (st : VState) : List DumpItem :=
  dumpFrom ((List.finRange kTouchpads).map fun i => (i.val, st.touchpad_ i))

/-! ## Helper lemmas -/

lemma get_set_same (st : VState) (i : Fin kTouchpads) (tp : Touchpad) :
    (st.set i tp).touchpad_ i = tp := by
  simp [VState.set]

lemma get_set_ne (st : VState) (i j : Fin kTouchpads) (tp : Touchpad)
    (h : j ≠ i) : (st.set i tp).touchpad_ j = st.touchpad_ j := by
  simp [VState.set, Function.update_noteq h]

lemma fin_id_guard (i : Fin kTouchpads) :
    ¬((i.val : ℤ) < 0 ∨ (kTouchpads : ℤ) ≤ (i.val : ℤ)) := by
  have := i.isLt; omega

lemma fin_id_idx (i : Fin kTouchpads) (h : ((i.val : ℤ)).toNat < kTouchpads) :
    (⟨((i.val : ℤ)).toNat, h⟩ : Fin kTouchpads) = i := by
  ext
  simp

/-- All bits of `n` outside bit 3 vanish exactly when `n` is 0 or 8. -/
lemma ldiff_eight_eq_zero_iff (n : ℕ) : Nat.ldiff n 8 = 0 ↔ n = 0 ∨ n = 8 := by
  have h8 : ∀ k, k ≠ 3 → Nat.testBit 8 k = false := by
    intro k hk
    have h2 : (8 : ℕ) = 2 ^ 3 := by norm_num
    rw [h2, Nat.testBit_two_pow_of_ne (Ne.symm hk)]
  constructor
  · intro h
    have hoff : ∀ k, k ≠ 3 → n.testBit k = false := by
      intro k hk
      have hb : (Nat.ldiff n 8).testBit k = false := by rw [h, Nat.zero_testBit]
      rw [Nat.testBit_ldiff, h8 k hk] at hb
      simpa using hb
    by_cases h3 : n.testBit 3
    · right
      apply Nat.eq_of_testBit_eq
      intro k
      by_cases hk : k = 3
      · subst hk; rw [h3]; decide
      · rw [hoff k hk, h8 k hk]
    · left
      apply Nat.eq_of_testBit_eq
      intro k
      rw [Nat.zero_testBit]
      by_cases hk : k = 3
      · subst hk; simpa using h3
      · exact hoff k hk
  · rintro (rfl | rfl) <;>
      refine Nat.eq_of_testBit_eq fun k => ?_ <;>
      simp [Nat.testBit_ldiff, Nat.zero_testBit]

lemma int_land_lnot_eight_natCast (n : ℕ) :
    Int.land (n : ℤ) (Int.lnot 8) = (Nat.ldiff n 8 : ℤ) := rfl

/-- The C test `buttons & ~AMOTION_EVENT_BUTTON_BACK == 0` holds exactly for
the two recognized masks, 0 and the back bit itself. -/
lemma int_land_lnot_eight_eq_zero_iff (b : ℤ) :
    Int.land b (Int.lnot 8) = 0 ↔ b = 0 ∨ b = 8 := by
  cases b with
  | ofNat n =>
    show Int.land (n : ℤ) (Int.lnot 8) = 0 ↔ (n : ℤ) = 0 ∨ (n : ℤ) = 8
    rw [int_land_lnot_eight_natCast, Int.natCast_eq_zero, ldiff_eight_eq_zero_iff]
    omega
  | negSucc n =>
    show Int.negSucc (n ||| 8) = 0 ↔ Int.negSucc n = 0 ∨ Int.negSucc n = 8
    constructor
    · intro h; exact Int.noConfusion h
    · rintro (h | h) <;> exact Int.noConfusion h

/-- The C test `(last ^ buttons) == 0` is exactly mask equality. -/
lemma int_xor_eq_zero_iff (a b : ℤ) : Int.xor a b = 0 ↔ a = b := by
  cases a with
  | ofNat m =>
    cases b with
    | ofNat n =>
      show ((m ^^^ n : ℕ) : ℤ) = 0 ↔ (m : ℤ) = (n : ℤ)
      rw [Int.natCast_eq_zero, Nat.xor_eq_zero, Int.natCast_inj]
    | negSucc n =>
      show Int.negSucc (m ^^^ n) = 0 ↔ Int.ofNat m = Int.negSucc n
      constructor
      · intro h; exact Int.noConfusion h
      · intro h; exact Int.noConfusion h
  | negSucc m =>
    cases b with
    | ofNat n =>
      show Int.negSucc (m ^^^ n) = 0 ↔ Int.negSucc m = Int.ofNat n
      constructor
      · intro h; exact Int.noConfusion h
      · intro h; exact Int.noConfusion h
    | negSucc n =>
      show ((m ^^^ n : ℕ) : ℤ) = 0 ↔ Int.negSucc m = Int.negSucc n
      rw [Int.natCast_eq_zero, Nat.xor_eq_zero, Int.negSucc_inj]

lemma contactBit_le_one (p : ℚ) : contactBit p ≤ 1 := by
  unfold contactBit
  split <;> omega

/-- The bit-twiddle `((t & 1) << 1) | c` is `2 * (t % 2) + c` for `c ≤ 1`. -/
lemma advanceTouches_eq (t c : ℕ) (hc : c ≤ 1) :
    advanceTouches t c = 2 * (t % 2) + c := by
  unfold advanceTouches
  rw [Nat.and_one_is_mod, Nat.shiftLeft_eq]
  rcases Nat.mod_two_eq_zero_or_one t with h | h <;>
    rw [h] <;> interval_cases c <;> decide

lemma advanceTouches_lt_four (t c : ℕ) (hc : c ≤ 1) :
    advanceTouches t c < 4 := by
  rw [advanceTouches_eq t c hc]
  have := Nat.mod_lt t (show 0 < 2 by norm_num)
  omega

/-- Unfolding of `Touch` at an in-range index with in-range coordinates. -/
lemma Touch_eq (st : VState) (i : Fin kTouchpads) (x y p : ℚ)
    (hx0 : 0 ≤ x) (hx1 : x < 1) (hy0 : 0 ≤ y) (hy1 : y < 1) :
    Touch st (i.val : ℤ) x y p =
      (let tp := { st.touchpad_ i with
        touches := advanceTouches (st.touchpad_ i).touches (contactBit p) }
       if tp.injector.isNone then
         (ERROR_SEQUENCING, st.set i tp, [])
       else
         (0, st.set i { tp with last_device_x := ⌊x * (kWidth : ℚ)⌋,
                                last_device_y := ⌊y * (kHeight : ℚ)⌋ },
          touchEmission tp.touches ⌊x * (kWidth : ℚ)⌋ ⌊y * (kHeight : ℚ)⌋
            tp.last_device_x tp.last_device_y)) := by
  rw [Touch, dif_neg (fin_id_guard i), if_neg]
  · simp only [fin_id_idx]
  · push_neg
    exact ⟨hx0, hx1, hy0, hy1⟩

/-- Unfolding of `ButtonState` at an in-range index. -/
lemma ButtonState_eq (st : VState) (i : Fin kTouchpads) (buttons : ℤ) :
    ButtonState st (i.val : ℤ) buttons =
      (let tp := st.touchpad_ i
       let changes := Int.xor tp.last_motion_event_buttons buttons
       if changes = 0 then
         (0, st, [])
       else if Int.land buttons (Int.lnot AMOTION_EVENT_BUTTON_BACK) ≠ 0 then
         (ENOTSUP, st, [])
       else if tp.injector.isNone then
         (ERROR_SEQUENCING, st, [])
       else
         (0, st.set i { tp with last_motion_event_buttons := buttons },
          if Int.land changes AMOTION_EVENT_BUTTON_BACK ≠ 0 then
            [Primitive.sendKey BTN_BACK
              (if Int.land buttons AMOTION_EVENT_BUTTON_BACK ≠ 0 then KEY_PRESS
               else KEY_RELEASE),
             Primitive.sendSynReport]
          else [])) := by
  rw [ButtonState, dif_neg (fin_id_guard i)]
  simp only [fin_id_idx]

/-- Unfolding of `Scroll` at an in-range index with in-range deltas. -/
lemma Scroll_eq (st : VState) (i : Fin kTouchpads) (x y : ℚ)
    (hx0 : -1 ≤ x) (hx1 : x ≤ 1) (hy0 : -1 ≤ y) (hy1 : y ≤ 1) :
    Scroll st (i.val : ℤ) x y =
      (let tp := st.touchpad_ i
       if tp.injector.isNone then
         (ERROR_SEQUENCING, st, [])
       else
         (0, st,
          (if scale_relative_scroll x ≠ 0 then
            [Primitive.sendRel REL_HWHEEL (scale_relative_scroll x)] else []) ++
          (if scale_relative_scroll y ≠ 0 then
            [Primitive.sendRel REL_WHEEL (scale_relative_scroll y)] else []) ++
          (if scale_relative_scroll x ≠ 0 ∨ scale_relative_scroll y ≠ 0 then
            [Primitive.sendSynReport] else []))) := by
  rw [Scroll, dif_neg (fin_id_guard i), if_neg]
  · simp only [fin_id_idx]
  · push_neg
    exact ⟨hx0, hx1, hy0, hy1⟩

/-- `Touch` on a slot with an attached injector. -/
lemma Touch_eq_inj (st : VState) (i : Fin kTouchpads) (x y p : ℚ)
    (hinj : (st.touchpad_ i).injector ≠ none)
    (hx0 : 0 ≤ x) (hx1 : x < 1) (hy0 : 0 ≤ y) (hy1 : y < 1) :
    Touch st (i.val : ℤ) x y p =
      (0, st.set i { st.touchpad_ i with
            touches := advanceTouches (st.touchpad_ i).touches (contactBit p),
            last_device_x := ⌊x * (kWidth : ℚ)⌋,
            last_device_y := ⌊y * (kHeight : ℚ)⌋ },
       touchEmission (advanceTouches (st.touchpad_ i).touches (contactBit p))
         ⌊x * (kWidth : ℚ)⌋ ⌊y * (kHeight : ℚ)⌋
         (st.touchpad_ i).last_device_x (st.touchpad_ i).last_device_y) := by
  obtain ⟨inj, hinjeq⟩ := Option.ne_none_iff_exists'.mp hinj
  rw [Touch_eq st i x y p hx0 hx1 hy0 hy1]
  simp [hinjeq]

/-- `Touch` on a slot with no injector: the sequencing error, the advanced
history, and no emission. -/
lemma Touch_eq_noinj (st : VState) (i : Fin kTouchpads) (x y p : ℚ)
    (hinj : (st.touchpad_ i).injector = none)
    (hx0 : 0 ≤ x) (hx1 : x < 1) (hy0 : 0 ≤ y) (hy1 : y < 1) :
    Touch st (i.val : ℤ) x y p =
      (ERROR_SEQUENCING, st.set i { st.touchpad_ i with
            touches := advanceTouches (st.touchpad_ i).touches (contactBit p) },
       []) := by
  rw [Touch_eq st i x y p hx0 hx1 hy0 hy1]
  simp [hinj]

lemma touchEmission_zero (dx dy lx ly : ℤ) :
    touchEmission 0 dx dy lx ly =
      if dx ≠ lx ∨ dy ≠ ly then
        [Primitive.sendMultiTouchXY 0 0 dx dy, Primitive.sendSynReport]
      else [] := by
  rw [touchEmission, if_pos rfl]

lemma touchEmission_one (dx dy lx ly : ℤ) :
    touchEmission 1 dx dy lx ly =
      [Primitive.sendMultiTouchXY 0 0 dx dy,
       Primitive.sendKey BTN_TOUCH KEY_PRESS, Primitive.sendSynReport] := by
  rw [touchEmission, if_neg (by decide), if_pos rfl]

lemma touchEmission_two (dx dy lx ly : ℤ) :
    touchEmission 2 dx dy lx ly =
      [Primitive.sendKey BTN_TOUCH KEY_RELEASE,
       Primitive.sendMultiTouchLift 0, Primitive.sendSynReport] := by
  rw [touchEmission, if_neg (by decide), if_neg (by decide), if_pos rfl]

lemma touchEmission_three (dx dy lx ly : ℤ) :
    touchEmission 3 dx dy lx ly =
      if dx ≠ lx ∨ dy ≠ ly then
        [Primitive.sendMultiTouchXY 0 0 dx dy, Primitive.sendSynReport]
      else [] := by
  rw [touchEmission, if_neg (by decide), if_neg (by decide), if_neg (by decide)]

lemma floor_coord_bounds (x : ℚ) (hx0 : 0 ≤ x) (hx1 : x < 1) :
    0 ≤ ⌊x * (kWidth : ℚ)⌋ ∧ ⌊x * (kWidth : ℚ)⌋ ≤ kWidth - 1 := by
  constructor
  · exact Int.floor_nonneg.mpr (by positivity)
  · have h : x * (kWidth : ℚ) < ((kWidth : ℤ) : ℚ) := by
      have h2 : x * (kWidth : ℚ) < 1 * (kWidth : ℚ) := by
        apply mul_lt_mul_of_pos_right hx1
        norm_num
      simpa using h2
    have := Int.floor_lt.mpr h
    omega

/-! ## Concrete states used by witnesses and counterexamples -/

/-- The state after `Create` followed by `Attach`: every slot holds an
owned injector and reset transient fields. -/
def attachedState : VState :=
  (Attach freshState).2

/-- A state with dirty transient fields and no injector, exercising what
`Attach` leaves untouched. -/
def dirtyState : VState :=
  ⟨fun _ => { injector := none
              last_device_x := 7
              last_device_y := 9
              touches := 3
              last_motion_event_buttons := 8 }⟩

/-- A state whose slot 0 has an (externally supplied) injector and dirty
fields while slot 1 has none. -/
def halfState : VState :=
  ⟨fun i =>
    if i = 0 then
      { injector := some { owned := false }
        last_device_x := 1
        last_device_y := 2
        touches := 3
        last_motion_event_buttons := 8 }
    else resetTouchpad⟩

/-- The button-mask invariant: every slot's stored mask has no bit outside
the recognized back-button bit. -/
def MaskInv (st : VState) : Prop :=
  ∀ i : Fin kTouchpads,
    Int.land (st.touchpad_ i).last_motion_event_buttons
      (Int.lnot AMOTION_EVENT_BUTTON_BACK) = 0

/-! ## Further unfolding lemmas for the event operations -/

lemma ButtonState_eq_nochange (st : VState) (i : Fin kTouchpads) (buttons : ℤ)
    (h : Int.xor (st.touchpad_ i).last_motion_event_buttons buttons = 0) :
    ButtonState st (i.val : ℤ) buttons = (0, st, []) := by
  rw [ButtonState_eq st i buttons]
  dsimp only
  rw [if_pos h]

lemma ButtonState_eq_unrecognized (st : VState) (i : Fin kTouchpads)
    (buttons : ℤ)
    (h1 : Int.xor (st.touchpad_ i).last_motion_event_buttons buttons ≠ 0)
    (h2 : Int.land buttons (Int.lnot AMOTION_EVENT_BUTTON_BACK) ≠ 0) :
    ButtonState st (i.val : ℤ) buttons = (ENOTSUP, st, []) := by
  rw [ButtonState_eq st i buttons]
  dsimp only
  rw [if_neg h1, if_pos h2]

lemma ButtonState_eq_noinj (st : VState) (i : Fin kTouchpads) (buttons : ℤ)
    (h1 : Int.xor (st.touchpad_ i).last_motion_event_buttons buttons ≠ 0)
    (h2 : Int.land buttons (Int.lnot AMOTION_EVENT_BUTTON_BACK) = 0)
    (h3 : (st.touchpad_ i).injector = none) :
    ButtonState st (i.val : ℤ) buttons = (ERROR_SEQUENCING, st, []) := by
  rw [ButtonState_eq st i buttons]
  dsimp only
  rw [if_neg h1, if_neg (by simpa using h2), if_pos (by simp [h3])]

lemma Scroll_eq_inj (st : VState) (i : Fin kTouchpads) (x y : ℚ)
    (hinj : (st.touchpad_ i).injector ≠ none)
    (hx0 : -1 ≤ x) (hx1 : x ≤ 1) (hy0 : -1 ≤ y) (hy1 : y ≤ 1) :
    Scroll st (i.val : ℤ) x y =
      (0, st,
       (if scale_relative_scroll x ≠ 0 then
         [Primitive.sendRel REL_HWHEEL (scale_relative_scroll x)] else []) ++
       (if scale_relative_scroll y ≠ 0 then
         [Primitive.sendRel REL_WHEEL (scale_relative_scroll y)] else []) ++
       (if scale_relative_scroll x ≠ 0 ∨ scale_relative_scroll y ≠ 0 then
         [Primitive.sendSynReport] else [])) := by
  obtain ⟨inj, hinjeq⟩ := Option.ne_none_iff_exists'.mp hinj
  rw [Scroll_eq st i x y hx0 hx1 hy0 hy1]
  simp [hinjeq]

lemma scale_relative_scroll_zero : scale_relative_scroll 0 = 0 := by
  norm_num [scale_relative_scroll]

lemma scale_relative_scroll_mag (v : ℚ) (hv : v ≠ 0) :
    1 ≤ |scale_relative_scroll v| := by
  have hpos : (0 : ℤ) < ⌈|4 * v|⌉ := by
    apply Int.ceil_pos.mpr
    positivity
  unfold scale_relative_scroll
  split
  · rw [abs_neg, abs_of_pos hpos]
    omega
  · rw [abs_of_pos hpos]
    omega

lemma scale_relative_scroll_pos (v : ℚ) (hv : 0 < v) :
    0 < scale_relative_scroll v := by
  have hpos : (0 : ℤ) < ⌈|4 * v|⌉ := by
    apply Int.ceil_pos.mpr
    positivity
  unfold scale_relative_scroll
  rw [if_neg (by linarith)]
  exact hpos

lemma scale_relative_scroll_neg (v : ℚ) (hv : v < 0) :
    scale_relative_scroll v < 0 := by
  have hpos : (0 : ℤ) < ⌈|4 * v|⌉ := by
    apply Int.ceil_pos.mpr
    have hne : v ≠ 0 := ne_of_lt hv
    positivity
  unfold scale_relative_scroll
  rw [if_pos hv]
  omega

lemma maskInv_set (st : VState) (h : MaskInv st) (i : Fin kTouchpads)
    (tp : Touchpad)
    (htp : Int.land tp.last_motion_event_buttons
      (Int.lnot AMOTION_EVENT_BUTTON_BACK) = 0) :
    MaskInv (st.set i tp) := by
  intro j
  by_cases hji : j = i
  · subst hji
    rw [get_set_same]
    exact htp
  · rw [get_set_ne st i j tp hji]
    exact h j

lemma maskInv_touch (st : VState) (h : MaskInv st) (tid : ℤ) (x y p : ℚ) :
    MaskInv (Touch st tid x y p).2.1 := by
  unfold Touch
  split
  · exact h
  · split
    · exact h
    · dsimp only
      split
      · exact maskInv_set st h _ _ (h _)
      · exact maskInv_set st h _ _ (h _)

lemma maskInv_buttonState (st : VState) (h : MaskInv st) (tid : ℤ)
    (buttons : ℤ) : MaskInv (ButtonState st tid buttons).2.1 := by
  unfold ButtonState
  split
  · exact h
  · dsimp only
    split
    · exact h
    · split
      · exact h
      · split
        · exact h
        · next hrec _ =>
          exact maskInv_set st h _ _ (not_not.mp hrec)

lemma maskInv_scroll (st : VState) (h : MaskInv st) (tid : ℤ) (x y : ℚ) :
    MaskInv (Scroll st tid x y).2.1 := by
  unfold Scroll
  split
  · exact h
  · split
    · exact h
    · dsimp only
      split
      · exact h
      · exact h

/-! ## Claims -/

/-- Claim C1: for every in-range touchpad with an attached injector and
in-range coordinates, the updated 2-bit contact history selects exactly one
of four emission sequences: history 01 emits position, press of the primary
touch key, then a barrier; history 10 emits release, lift for slot 0, then a
barrier, with no position update; histories 00 and 11 emit a position update
followed by a barrier exactly when the device position changed, and nothing
at all otherwise. -/
theorem touch_contact_history_emissions (st : VState) (i : Fin kTouchpads)
    (x y p : ℚ) (hinj : (st.touchpad_ i).injector ≠ none)
    (hx0 : 0 ≤ x) (hx1 : x < 1) (hy0 : 0 ≤ y) (hy1 : y < 1) :
    advanceTouches (st.touchpad_ i).touches (contactBit p) < 4 ∧
    (advanceTouches (st.touchpad_ i).touches (contactBit p) = 1 →
      (Touch st (i.val : ℤ) x y p).2.2 =
        [Primitive.sendMultiTouchXY 0 0 ⌊x * (kWidth : ℚ)⌋ ⌊y * (kHeight : ℚ)⌋,
         Primitive.sendKey BTN_TOUCH KEY_PRESS, Primitive.sendSynReport]) ∧
    (advanceTouches (st.touchpad_ i).touches (contactBit p) = 2 →
      (Touch st (i.val : ℤ) x y p).2.2 =
        [Primitive.sendKey BTN_TOUCH KEY_RELEASE,
         Primitive.sendMultiTouchLift 0, Primitive.sendSynReport]) ∧
    ((advanceTouches (st.touchpad_ i).touches (contactBit p) = 0 ∨
      advanceTouches (st.touchpad_ i).touches (contactBit p) = 3) →
      ((⌊x * (kWidth : ℚ)⌋ ≠ (st.touchpad_ i).last_device_x ∨
        ⌊y * (kHeight : ℚ)⌋ ≠ (st.touchpad_ i).last_device_y) →
        (Touch st (i.val : ℤ) x y p).2.2 =
          [Primitive.sendMultiTouchXY 0 0 ⌊x * (kWidth : ℚ)⌋ ⌊y * (kHeight : ℚ)⌋,
           Primitive.sendSynReport]) ∧
      (⌊x * (kWidth : ℚ)⌋ = (st.touchpad_ i).last_device_x ∧
        ⌊y * (kHeight : ℚ)⌋ = (st.touchpad_ i).last_device_y →
        (Touch st (i.val : ℤ) x y p).2.2 = [])) := by
  simp only [Touch_eq_inj st i x y p hinj hx0 hx1 hy0 hy1]
  refine ⟨advanceTouches_lt_four _ _ (contactBit_le_one p), ?_, ?_, ?_⟩
  · intro h1
    rw [h1, touchEmission_one]
  · intro h2
    rw [h2, touchEmission_two]
  · intro h03
    constructor
    · intro hmv
      rcases h03 with h0 | h3
      · rw [h0, touchEmission_zero, if_pos hmv]
      · rw [h3, touchEmission_three, if_pos hmv]
    · intro hst
      rcases h03 with h0 | h3
      · rw [h0, touchEmission_zero, if_neg (by push_neg; exact hst)]
      · rw [h3, touchEmission_three, if_neg (by push_neg; exact hst)]

/-- Witness for C1 at the freshly attached state, slot 0, position (0,0),
pressure 1 (a touch-begin sample). -/
theorem touch_contact_history_emissions_witness :
    (attachedState.touchpad_ 0).injector ≠ none ∧ (0 : ℚ) ≤ 0 ∧ (0 : ℚ) < 1 ∧
    (advanceTouches (attachedState.touchpad_ 0).touches (contactBit 1) < 4 ∧
    (advanceTouches (attachedState.touchpad_ 0).touches (contactBit 1) = 1 →
      (Touch attachedState ((0 : Fin kTouchpads).val : ℤ) 0 0 1).2.2 =
        [Primitive.sendMultiTouchXY 0 0 ⌊(0 : ℚ) * (kWidth : ℚ)⌋
           ⌊(0 : ℚ) * (kHeight : ℚ)⌋,
         Primitive.sendKey BTN_TOUCH KEY_PRESS, Primitive.sendSynReport]) ∧
    (advanceTouches (attachedState.touchpad_ 0).touches (contactBit 1) = 2 →
      (Touch attachedState ((0 : Fin kTouchpads).val : ℤ) 0 0 1).2.2 =
        [Primitive.sendKey BTN_TOUCH KEY_RELEASE,
         Primitive.sendMultiTouchLift 0, Primitive.sendSynReport]) ∧
    ((advanceTouches (attachedState.touchpad_ 0).touches (contactBit 1) = 0 ∨
      advanceTouches (attachedState.touchpad_ 0).touches (contactBit 1) = 3) →
      ((⌊(0 : ℚ) * (kWidth : ℚ)⌋ ≠ (attachedState.touchpad_ 0).last_device_x ∨
        ⌊(0 : ℚ) * (kHeight : ℚ)⌋ ≠ (attachedState.touchpad_ 0).last_device_y) →
        (Touch attachedState ((0 : Fin kTouchpads).val : ℤ) 0 0 1).2.2 =
          [Primitive.sendMultiTouchXY 0 0 ⌊(0 : ℚ) * (kWidth : ℚ)⌋
             ⌊(0 : ℚ) * (kHeight : ℚ)⌋,
           Primitive.sendSynReport]) ∧
      (⌊(0 : ℚ) * (kWidth : ℚ)⌋ = (attachedState.touchpad_ 0).last_device_x ∧
        ⌊(0 : ℚ) * (kHeight : ℚ)⌋ = (attachedState.touchpad_ 0).last_device_y →
        (Touch attachedState ((0 : Fin kTouchpads).val : ℤ) 0 0 1).2.2 = []))) :=
  ⟨by decide, by decide, by decide,
   touch_contact_history_emissions attachedState 0 0 0 1 (by decide)
     (by decide) (by decide) (by decide) (by decide)⟩

/-- Claim C2 counterexample: `ButtonState` on an unattached slot with a
mask equal to the stored mask (here 0 = 0) returns success, not the
sequencing error, although the index is in range and the mask satisfies the
recognized-bits precondition.  So not every event operation on an
injector-less slot returns the sequencing error. -/
theorem no_injector_buttonstate_counterexample :
    (freshState.touchpad_ 0).injector = none ∧
    Int.land (0 : ℤ) (Int.lnot AMOTION_EVENT_BUTTON_BACK) = 0 ∧
    (ButtonState freshState 0 0).1 = 0 ∧
    (ButtonState freshState 0 0).1 ≠ ERROR_SEQUENCING :=
  ⟨by decide, (int_land_lnot_eight_eq_zero_iff 0).mpr (Or.inl rfl),
   by decide, by decide⟩

/-- Claim C2 (amended): on an in-range slot with no attached injector and
arguments satisfying the range preconditions, `Touch` and `Scroll` return
the sequencing error and emit nothing; `ButtonState` emits nothing and
returns the sequencing error unless the mask equals the stored mask, in
which case it returns success (the no-change early return precedes the
injector check). -/
theorem no_injector_event_ops (st : VState) (i : Fin kTouchpads)
    (x y p dx dy : ℚ) (buttons : ℤ)
    (hinj : (st.touchpad_ i).injector = none)
    (hx0 : 0 ≤ x) (hx1 : x < 1) (hy0 : 0 ≤ y) (hy1 : y < 1)
    (hdx0 : -1 ≤ dx) (hdx1 : dx ≤ 1) (hdy0 : -1 ≤ dy) (hdy1 : dy ≤ 1)
    (hbtn : Int.land buttons (Int.lnot AMOTION_EVENT_BUTTON_BACK) = 0) :
    (Touch st (i.val : ℤ) x y p).1 = ERROR_SEQUENCING ∧
    (Touch st (i.val : ℤ) x y p).2.2 = [] ∧
    (Scroll st (i.val : ℤ) dx dy).1 = ERROR_SEQUENCING ∧
    (Scroll st (i.val : ℤ) dx dy).2.2 = [] ∧
    (buttons = (st.touchpad_ i).last_motion_event_buttons →
      (ButtonState st (i.val : ℤ) buttons).1 = 0) ∧
    (buttons ≠ (st.touchpad_ i).last_motion_event_buttons →
      (ButtonState st (i.val : ℤ) buttons).1 = ERROR_SEQUENCING) ∧
    (ButtonState st (i.val : ℤ) buttons).2.2 = [] := by
  rw [Touch_eq_noinj st i x y p hinj hx0 hx1 hy0 hy1]
  rw [Scroll_eq st i dx dy hdx0 hdx1 hdy0 hdy1]
  refine ⟨rfl, rfl, by simp [hinj], by simp [hinj], ?_, ?_, ?_⟩
  · intro heq
    rw [ButtonState_eq_nochange st i buttons
      ((int_xor_eq_zero_iff _ _).mpr heq.symm)]
  · intro hne
    rw [ButtonState_eq_noinj st i buttons
      (fun h => hne ((int_xor_eq_zero_iff _ _).mp h).symm) hbtn hinj]
  · by_cases heq : buttons = (st.touchpad_ i).last_motion_event_buttons
    · rw [ButtonState_eq_nochange st i buttons
        ((int_xor_eq_zero_iff _ _).mpr heq.symm)]
    · rw [ButtonState_eq_noinj st i buttons
        (fun h => heq ((int_xor_eq_zero_iff _ _).mp h).symm) hbtn hinj]

/-- Witness for the amended C2 at the fresh (unattached) state, slot 0. -/
theorem no_injector_event_ops_witness :
    (freshState.touchpad_ 0).injector = none ∧ (0 : ℚ) ≤ 0 ∧ (0 : ℚ) < 1 ∧
    (-1 : ℚ) ≤ 1 ∧ (1 : ℚ) ≤ 1 ∧
    Int.land (8 : ℤ) (Int.lnot AMOTION_EVENT_BUTTON_BACK) = 0 ∧
    ((Touch freshState ((0 : Fin kTouchpads).val : ℤ) 0 0 1).1 =
       ERROR_SEQUENCING ∧
     (Touch freshState ((0 : Fin kTouchpads).val : ℤ) 0 0 1).2.2 = [] ∧
     (Scroll freshState ((0 : Fin kTouchpads).val : ℤ) 1 1).1 =
       ERROR_SEQUENCING ∧
     (Scroll freshState ((0 : Fin kTouchpads).val : ℤ) 1 1).2.2 = [] ∧
     ((8 : ℤ) = (freshState.touchpad_ 0).last_motion_event_buttons →
       (ButtonState freshState ((0 : Fin kTouchpads).val : ℤ) 8).1 = 0) ∧
     ((8 : ℤ) ≠ (freshState.touchpad_ 0).last_motion_event_buttons →
       (ButtonState freshState ((0 : Fin kTouchpads).val : ℤ) 8).1 =
         ERROR_SEQUENCING) ∧
     (ButtonState freshState ((0 : Fin kTouchpads).val : ℤ) 8).2.2 = []) :=
  ⟨by decide, by decide, by decide, by decide, by decide,
   (int_land_lnot_eight_eq_zero_iff 8).mpr (Or.inr rfl),
   no_injector_event_ops freshState 0 0 0 1 1 1 8 (by decide) (by decide)
     (by decide) (by decide) (by decide) (by decide) (by decide) (by decide)
     (by decide) ((int_land_lnot_eight_eq_zero_iff 8).mpr (Or.inr rfl))⟩

/-- Claim C3: for in-range normalized coordinates, the device coordinates
computed by `Touch` (observable as the stored last position) are
`⌊x * kWidth⌋` and `⌊y * kHeight⌋` and lie strictly within
`[0, kWidth-1] × [0, kHeight-1]` (kWidth = kHeight = 65536). -/
theorem touch_device_coordinates (st : VState) (i : Fin kTouchpads)
    (x y p : ℚ) (hinj : (st.touchpad_ i).injector ≠ none)
    (hx0 : 0 ≤ x) (hx1 : x < 1) (hy0 : 0 ≤ y) (hy1 : y < 1) :
    ((Touch st (i.val : ℤ) x y p).2.1.touchpad_ i).last_device_x =
      ⌊x * (kWidth : ℚ)⌋ ∧
    ((Touch st (i.val : ℤ) x y p).2.1.touchpad_ i).last_device_y =
      ⌊y * (kHeight : ℚ)⌋ ∧
    0 ≤ ⌊x * (kWidth : ℚ)⌋ ∧ ⌊x * (kWidth : ℚ)⌋ ≤ kWidth - 1 ∧
    0 ≤ ⌊y * (kHeight : ℚ)⌋ ∧ ⌊y * (kHeight : ℚ)⌋ ≤ kHeight - 1 := by
  rw [Touch_eq_inj st i x y p hinj hx0 hx1 hy0 hy1]
  refine ⟨?_, ?_, (floor_coord_bounds x hx0 hx1).1,
    (floor_coord_bounds x hx0 hx1).2, (floor_coord_bounds y hy0 hy1).1,
    (floor_coord_bounds y hy0 hy1).2⟩ <;>
    rw [get_set_same]

/-- Witness for C3 at the attached state, slot 0, position (0,0). -/
theorem touch_device_coordinates_witness :
    (attachedState.touchpad_ 0).injector ≠ none ∧ (0 : ℚ) ≤ 0 ∧ (0 : ℚ) < 1 ∧
    (((Touch attachedState ((0 : Fin kTouchpads).val : ℤ) 0 0 1).2.1.touchpad_
        0).last_device_x = ⌊(0 : ℚ) * (kWidth : ℚ)⌋ ∧
    ((Touch attachedState ((0 : Fin kTouchpads).val : ℤ) 0 0 1).2.1.touchpad_
        0).last_device_y = ⌊(0 : ℚ) * (kHeight : ℚ)⌋ ∧
    0 ≤ ⌊(0 : ℚ) * (kWidth : ℚ)⌋ ∧ ⌊(0 : ℚ) * (kWidth : ℚ)⌋ ≤ kWidth - 1 ∧
    0 ≤ ⌊(0 : ℚ) * (kHeight : ℚ)⌋ ∧ ⌊(0 : ℚ) * (kHeight : ℚ)⌋ ≤ kHeight - 1) :=
  ⟨by decide, by decide, by decide,
   touch_device_coordinates attachedState 0 0 0 1 (by decide)
     (by decide) (by decide) (by decide) (by decide)⟩

/-- Claim C4: `Scroll` quantizes each axis independently as
`sign(v) * ⌈|4v|⌉` — zero exactly on zero input, magnitude at least 1 on
nonzero input, sign preserved — and emits one relative event per nonzero
quantized axis (distinct axis codes) followed by exactly one barrier when
anything was emitted, and nothing at all when both axes quantize to zero. -/
theorem scroll_quantization_emission (st : VState) (i : Fin kTouchpads)
    (x y : ℚ) (hinj : (st.touchpad_ i).injector ≠ none)
    (hx0 : -1 ≤ x) (hx1 : x ≤ 1) (hy0 : -1 ≤ y) (hy1 : y ≤ 1) :
    (∀ v : ℚ,
      (v = 0 → scale_relative_scroll v = 0) ∧
      (v ≠ 0 → 1 ≤ |scale_relative_scroll v|) ∧
      (0 < v → 0 < scale_relative_scroll v) ∧
      (v < 0 → scale_relative_scroll v < 0)) ∧
    REL_HWHEEL ≠ REL_WHEEL ∧
    (Scroll st (i.val : ℤ) x y).2.2 =
      (if scale_relative_scroll x ≠ 0 then
        [Primitive.sendRel REL_HWHEEL (scale_relative_scroll x)] else []) ++
      (if scale_relative_scroll y ≠ 0 then
        [Primitive.sendRel REL_WHEEL (scale_relative_scroll y)] else []) ++
      (if scale_relative_scroll x ≠ 0 ∨ scale_relative_scroll y ≠ 0 then
        [Primitive.sendSynReport] else []) ∧
    (x = 0 ∧ y = 0 → (Scroll st (i.val : ℤ) x y).2.2 = []) := by
  refine ⟨?_, by decide, ?_, ?_⟩
  · intro v
    exact ⟨fun hv => hv ▸ scale_relative_scroll_zero,
      scale_relative_scroll_mag v, scale_relative_scroll_pos v,
      scale_relative_scroll_neg v⟩
  · rw [Scroll_eq_inj st i x y hinj hx0 hx1 hy0 hy1]
  · rintro ⟨rfl, rfl⟩
    rw [Scroll_eq_inj st i 0 0 hinj hx0 hx1 hy0 hy1]
    simp [scale_relative_scroll_zero]

/-- Witness for C4 at the attached state, slot 0, deltas (1, 0): the trace
equation and the all-zero case at a concrete call. -/
theorem scroll_quantization_emission_witness :
    (attachedState.touchpad_ 0).injector ≠ none ∧ (-1 : ℚ) ≤ 1 ∧
    (1 : ℚ) ≤ 1 ∧ (-1 : ℚ) ≤ 0 ∧ (0 : ℚ) ≤ 1 ∧
    (REL_HWHEEL ≠ REL_WHEEL ∧
     (Scroll attachedState ((0 : Fin kTouchpads).val : ℤ) 1 0).2.2 =
       (if scale_relative_scroll 1 ≠ 0 then
         [Primitive.sendRel REL_HWHEEL (scale_relative_scroll 1)] else []) ++
       (if scale_relative_scroll 0 ≠ 0 then
         [Primitive.sendRel REL_WHEEL (scale_relative_scroll 0)] else []) ++
       (if scale_relative_scroll 1 ≠ 0 ∨ scale_relative_scroll 0 ≠ 0 then
         [Primitive.sendSynReport] else []) ∧
     ((1 : ℚ) = 0 ∧ (0 : ℚ) = 0 →
       (Scroll attachedState ((0 : Fin kTouchpads).val : ℤ) 1 0).2.2 = [])) :=
  ⟨by decide, by decide, by decide, by decide, by decide,
   (scroll_quantization_emission attachedState 0 1 0 (by decide) (by decide)
     (by decide) (by decide) (by decide)).2⟩

/-- Claim C5: with a stored mask containing only recognized bits (an
invariant of every reachable state, see `button_mask_invariant`), a
`ButtonState` call whose mask has any bit outside the back button returns
`ENOTSUP`, changes no state and emits nothing. -/
theorem buttonstate_unrecognized_bits (st : VState) (i : Fin kTouchpads)
    (buttons : ℤ)
    (hprior : Int.land (st.touchpad_ i).last_motion_event_buttons
      (Int.lnot AMOTION_EVENT_BUTTON_BACK) = 0)
    (hbad : Int.land buttons (Int.lnot AMOTION_EVENT_BUTTON_BACK) ≠ 0) :
    (ButtonState st (i.val : ℤ) buttons).1 = ENOTSUP ∧
    (ButtonState st (i.val : ℤ) buttons).2.1 = st ∧
    (ButtonState st (i.val : ℤ) buttons).2.2 = [] := by
  have hchg : Int.xor (st.touchpad_ i).last_motion_event_buttons buttons ≠ 0 := by
    intro h
    have heq := (int_xor_eq_zero_iff _ _).mp h
    rw [heq] at hprior
    exact hbad hprior
  rw [ButtonState_eq_unrecognized st i buttons hchg hbad]
  exact ⟨rfl, rfl, rfl⟩

/-- Witness for C5 at `halfState` (stored mask 8), slot 0, mask 9. -/
theorem buttonstate_unrecognized_bits_witness :
    Int.land (halfState.touchpad_ 0).last_motion_event_buttons
      (Int.lnot AMOTION_EVENT_BUTTON_BACK) = 0 ∧
    Int.land 9 (Int.lnot AMOTION_EVENT_BUTTON_BACK) ≠ 0 ∧
    ((ButtonState halfState ((0 : Fin kTouchpads).val : ℤ) 9).1 = ENOTSUP ∧
     (ButtonState halfState ((0 : Fin kTouchpads).val : ℤ) 9).2.1 = halfState ∧
     (ButtonState halfState ((0 : Fin kTouchpads).val : ℤ) 9).2.2 = []) :=
  ⟨(int_land_lnot_eight_eq_zero_iff _).mpr (Or.inr rfl),
   fun h => by simpa using (int_land_lnot_eight_eq_zero_iff 9).mp h,
   buttonstate_unrecognized_bits halfState 0 9
     ((int_land_lnot_eight_eq_zero_iff _).mpr (Or.inr rfl))
     (fun h => by simpa using (int_land_lnot_eight_eq_zero_iff 9).mp h)⟩

/-- Claim C6: every validated `Touch` on an attached slot stores the newly
computed device coordinates in the slot, in every branch — including the
contact-end branch (history 2), which emits no position update. -/
theorem touch_updates_last_position (st : VState) (i : Fin kTouchpads)
    (x y p : ℚ) (hinj : (st.touchpad_ i).injector ≠ none)
    (hx0 : 0 ≤ x) (hx1 : x < 1) (hy0 : 0 ≤ y) (hy1 : y < 1) :
    ((Touch st (i.val : ℤ) x y p).2.1.touchpad_ i).last_device_x =
      ⌊x * (kWidth : ℚ)⌋ ∧
    ((Touch st (i.val : ℤ) x y p).2.1.touchpad_ i).last_device_y =
      ⌊y * (kHeight : ℚ)⌋ ∧
    (advanceTouches (st.touchpad_ i).touches (contactBit p) = 2 →
      ∀ a b c d, Primitive.sendMultiTouchXY a b c d ∉
        (Touch st (i.val : ℤ) x y p).2.2) := by
  simp only [Touch_eq_inj st i x y p hinj hx0 hx1 hy0 hy1]
  refine ⟨by rw [get_set_same], by rw [get_set_same], ?_⟩
  intro h2 a b c d
  rw [h2, touchEmission_two]
  simp

/-- Witness for C6 at the attached state, slot 0. -/
theorem touch_updates_last_position_witness :
    (attachedState.touchpad_ 0).injector ≠ none ∧ (0 : ℚ) ≤ 0 ∧ (0 : ℚ) < 1 ∧
    ((Touch attachedState ((0 : Fin kTouchpads).val : ℤ) 0 0 0).2.1.touchpad_
        0).last_device_x = ⌊(0 : ℚ) * (kWidth : ℚ)⌋ ∧
    ((Touch attachedState ((0 : Fin kTouchpads).val : ℤ) 0 0 0).2.1.touchpad_
        0).last_device_y = ⌊(0 : ℚ) * (kHeight : ℚ)⌋ :=
  ⟨by decide, by decide, by decide,
   (touch_updates_last_position attachedState 0 0 0 0 (by decide) (by decide)
     (by decide) (by decide) (by decide)).1,
   (touch_updates_last_position attachedState 0 0 0 0 (by decide) (by decide)
     (by decide) (by decide) (by decide)).2.1⟩

/-- Claim C7 counterexample: `Attach` does not reset the per-slot transient
fields.  On a state whose slot 0 has `touches = 3`, `last_device_x = 7` and
`last_motion_event_buttons = 8`, `Attach` creates an injector but the
transient fields keep their dirty values. -/
theorem attach_reset_counterexample :
    ((Attach dirtyState).2.touchpad_ 0).injector.isSome = true ∧
    ((Attach dirtyState).2.touchpad_ 0).touches = 3 ∧
    ((Attach dirtyState).2.touchpad_ 0).last_device_x = 7 ∧
    ((Attach dirtyState).2.touchpad_ 0).last_motion_event_buttons = 8 ∧
    ¬(((Attach dirtyState).2.touchpad_ 0).touches = 0 ∧
      ((Attach dirtyState).2.touchpad_ 0).last_device_x = INT32_MIN ∧
      ((Attach dirtyState).2.touchpad_ 0).last_motion_event_buttons = 0) := by
  decide

/-- Claim C7 (amended): `Attach` creates an injector for every slot lacking
one and (re)configures existing injectors without replacing them, but leaves
every per-slot transient field (last position, contact history, button mask)
unchanged; the transients are reset by `Reset`/`Detach`, not by `Attach`. -/
theorem attach_preserves_transients (st : VState) (i : Fin kTouchpads) :
    ((Attach st).2.touchpad_ i).injector.isSome = true ∧
    ((Attach st).2.touchpad_ i).last_device_x = (st.touchpad_ i).last_device_x ∧
    ((Attach st).2.touchpad_ i).last_device_y = (st.touchpad_ i).last_device_y ∧
    ((Attach st).2.touchpad_ i).touches = (st.touchpad_ i).touches ∧
    ((Attach st).2.touchpad_ i).last_motion_event_buttons =
      (st.touchpad_ i).last_motion_event_buttons ∧
    (∀ inj, (st.touchpad_ i).injector = some inj →
      ((Attach st).2.touchpad_ i).injector = some inj) := by
  have hat : (Attach st).2.touchpad_ i = attachSlot (st.touchpad_ i) := rfl
  rw [hat]
  unfold attachSlot
  cases hi : (st.touchpad_ i).injector with
  | none => simp [hi]
  | some inj => simp [hi]

/-- Witness for the amended C7 at `dirtyState` and `halfState`. -/
theorem attach_preserves_transients_witness :
    ((Attach dirtyState).2.touchpad_ 0).touches =
      (dirtyState.touchpad_ 0).touches ∧
    (dirtyState.touchpad_ 0).last_device_x = 7 ∧
    ((Attach halfState).2.touchpad_ 0).injector = some { owned := false } :=
  ⟨(attach_preserves_transients dirtyState 0).2.2.2.1, by decide,
   (attach_preserves_transients halfState 0).2.2.2.2.2 { owned := false }
     (by decide)⟩

/-- Claim C8: a validated `Touch` on a slot with no injector still advances
the 2-bit contact history before returning the sequencing error, while the
last device position and button mask stay unchanged and nothing is
emitted. -/
theorem touch_no_injector_state_effect (st : VState) (i : Fin kTouchpads)
    (x y p : ℚ) (hinj : (st.touchpad_ i).injector = none)
    (hx0 : 0 ≤ x) (hx1 : x < 1) (hy0 : 0 ≤ y) (hy1 : y < 1) :
    (Touch st (i.val : ℤ) x y p).1 = ERROR_SEQUENCING ∧
    ((Touch st (i.val : ℤ) x y p).2.1.touchpad_ i).touches =
      advanceTouches (st.touchpad_ i).touches (contactBit p) ∧
    ((Touch st (i.val : ℤ) x y p).2.1.touchpad_ i).last_device_x =
      (st.touchpad_ i).last_device_x ∧
    ((Touch st (i.val : ℤ) x y p).2.1.touchpad_ i).last_device_y =
      (st.touchpad_ i).last_device_y ∧
    ((Touch st (i.val : ℤ) x y p).2.1.touchpad_ i).last_motion_event_buttons =
      (st.touchpad_ i).last_motion_event_buttons ∧
    (Touch st (i.val : ℤ) x y p).2.2 = [] := by
  rw [Touch_eq_noinj st i x y p hinj hx0 hx1 hy0 hy1]
  refine ⟨rfl, ?_, ?_, ?_, ?_, rfl⟩ <;> rw [get_set_same]

/-- Witness for C8 at the fresh (unattached) state, slot 0, pressure 1. -/
theorem touch_no_injector_state_effect_witness :
    (freshState.touchpad_ 0).injector = none ∧ (0 : ℚ) ≤ 0 ∧ (0 : ℚ) < 1 ∧
    ((Touch freshState ((0 : Fin kTouchpads).val : ℤ) 0 0 1).1 =
       ERROR_SEQUENCING ∧
     ((Touch freshState ((0 : Fin kTouchpads).val : ℤ) 0 0 1).2.1.touchpad_
        0).touches = advanceTouches (freshState.touchpad_ 0).touches
          (contactBit 1) ∧
     ((Touch freshState ((0 : Fin kTouchpads).val : ℤ) 0 0 1).2.1.touchpad_
        0).last_device_x = (freshState.touchpad_ 0).last_device_x ∧
     ((Touch freshState ((0 : Fin kTouchpads).val : ℤ) 0 0 1).2.1.touchpad_
        0).last_device_y = (freshState.touchpad_ 0).last_device_y ∧
     ((Touch freshState ((0 : Fin kTouchpads).val : ℤ) 0 0 1).2.1.touchpad_
        0).last_motion_event_buttons =
          (freshState.touchpad_ 0).last_motion_event_buttons ∧
     (Touch freshState ((0 : Fin kTouchpads).val : ℤ) 0 0 1).2.2 = []) :=
  ⟨by decide, by decide, by decide,
   touch_no_injector_state_effect freshState 0 0 0 1 (by decide) (by decide)
     (by decide) (by decide) (by decide)⟩

/-- Claim C9: the stored button mask of every slot never contains a bit
outside the back-button bit: the invariant holds in the fresh state, and is
preserved by `Reset`, `Attach`, `Detach`, `Touch`, `ButtonState` and
`Scroll` (for any index argument). -/
theorem button_mask_invariant (st : VState) (h : MaskInv st) (tid : ℤ)
    (x y p dx dy : ℚ) (buttons : ℤ) :
    MaskInv freshState ∧ MaskInv (Reset st) ∧ MaskInv (Attach st).2 ∧
    MaskInv (Detach st).2 ∧ MaskInv (Touch st tid x y p).2.1 ∧
    MaskInv (ButtonState st tid buttons).2.1 ∧
    MaskInv (Scroll st tid dx dy).2.1 := by
  refine ⟨?_, ?_, ?_, ?_, maskInv_touch st h tid x y p,
    maskInv_buttonState st h tid buttons, maskInv_scroll st h tid dx dy⟩
  · exact fun _ => (int_land_lnot_eight_eq_zero_iff _).mpr (Or.inl rfl)
  · exact fun _ => (int_land_lnot_eight_eq_zero_iff _).mpr (Or.inl rfl)
  · intro j
    have hat : (Attach st).2.touchpad_ j = attachSlot (st.touchpad_ j) := rfl
    rw [hat]
    unfold attachSlot
    cases hi : (st.touchpad_ j).injector <;> exact h j
  · exact fun _ => (int_land_lnot_eight_eq_zero_iff _).mpr (Or.inl rfl)

/-- Witness for C9 at the fresh state with a back-button press. -/
theorem button_mask_invariant_witness :
    MaskInv freshState ∧ MaskInv (ButtonState freshState 0 8).2.1 :=
  ⟨fun _ => (int_land_lnot_eight_eq_zero_iff _).mpr (Or.inl rfl),
   (button_mask_invariant freshState
     (fun _ => (int_land_lnot_eight_eq_zero_iff _).mpr (Or.inl rfl))
     0 0 0 0 0 0 8).2.2.2.2.2.1⟩

/-- Claim C10: the diagnostic dump stops at the first slot with no
injector: it reports that slot's header and "injector = none" and omits all
later slots entirely. -/
theorem dump_stops_at_missing_injector (st : VState) :
    ((st.touchpad_ 0).injector = none →
      dumpInternal st = [DumpItem.header 0, DumpItem.injectorNone]) ∧
    (∀ inj, (st.touchpad_ 0).injector = some inj →
      (st.touchpad_ 1).injector = none →
      dumpInternal st =
        [DumpItem.header 0, DumpItem.injectorKind inj.owned,
         DumpItem.touchesLine (st.touchpad_ 0).touches,
         DumpItem.lastPosition (st.touchpad_ 0).last_device_x
           (st.touchpad_ 0).last_device_y,
         DumpItem.lastButtons (st.touchpad_ 0).last_motion_event_buttons,
         DumpItem.injectorInternal, DumpItem.blank,
         DumpItem.header 1, DumpItem.injectorNone]) := by
  have hfr : (List.finRange kTouchpads) = [0, 1] := rfl
  constructor
  · intro h0
    rw [dumpInternal, hfr]
    simp [dumpFrom, h0]
  · intro inj h0 h1
    rw [dumpInternal, hfr]
    simp [dumpFrom, h0, h1]

/-- Witness for C10: the fresh state truncates after slot 0; `halfState`
(slot 0 attached, slot 1 not) reports slot 0 fully, then truncates. -/
theorem dump_stops_at_missing_injector_witness :
    ((freshState.touchpad_ 0).injector = none ∧
      dumpInternal freshState = [DumpItem.header 0, DumpItem.injectorNone]) ∧
    ((halfState.touchpad_ 0).injector = some { owned := false } ∧
     (halfState.touchpad_ 1).injector = none ∧
     dumpInternal halfState =
       [DumpItem.header 0, DumpItem.injectorKind false,
        DumpItem.touchesLine (halfState.touchpad_ 0).touches,
        DumpItem.lastPosition (halfState.touchpad_ 0).last_device_x
          (halfState.touchpad_ 0).last_device_y,
        DumpItem.lastButtons (halfState.touchpad_ 0).last_motion_event_buttons,
        DumpItem.injectorInternal, DumpItem.blank,
        DumpItem.header 1, DumpItem.injectorNone]) :=
  ⟨⟨by decide, (dump_stops_at_missing_injector freshState).1 (by decide)⟩,
   ⟨by decide, by decide,
    (dump_stops_at_missing_injector halfState).2 { owned := false }
      (by decide) (by decide)⟩⟩

end VirtualTouchpad
